import Mathlib

/-!
Shallow embedding of the chillax-server track controller and user model.

The source is a TypeScript Express backend over MongoDB (mongoose).
Documents are modelled as Lean structures, ObjectIds as `Nat`, the
document store as in-memory lists, and the aggregation pipelines as list
transformations mirroring the pipeline stages in order.  Mongo `$sort` is
modelled by `List.insertionSort` with the compound descending key of the
source pipeline; the claims proved below only depend on the pairwise
order the comparator enforces.  Fallible handlers return
`Except ApplicationError out × DB`: the returned `DB` is the post-request
store, unchanged when the handler throws before mutating.
-/

/-- Application-level error: message plus HTTP status, as thrown by
`new ApplicationError(message, status)` in the source. -/
structure ApplicationError where
  message : String
  status : Nat
deriving DecidableEq

/-- A user document.  `_id` is the ObjectId; all remaining document
fields (password, email, followers, profile fields, likedPlaylists,
likedTracks, role, ...) are kept as a dynamic field list the way a Mongo
document stores them, since the `$project` stage removes fields by name. -/
structure User where
  _id : Nat
  fields : List (String × String)
deriving DecidableEq

/-- A track document, per the Track schema used by the controller:
name, image, owning author, owning playlist, liker ObjectId list, and
creation timestamp. -/
structure Track where
  _id : Nat
  name : String
  img : String
  author : Nat
  playlist : Nat
  liked : List Nat
  createdAt : Nat
deriving DecidableEq

/-- A playlist document: image and ordered track reference sequence. -/
structure Playlist where
  _id : Nat
  img : String
  tracks : List Nat
deriving DecidableEq

/-- The document store backing the handlers. -/
structure DB where
  users : List User
  playlists : List Playlist
  tracks : List Track
deriving DecidableEq

/-- A track after the ranked pipelines' `$addFields` stage: `liked`
is overwritten by the requester-membership boolean and `likedLength`
holds the size of the original liker array (both expressions of one
`$addFields` stage evaluate against the stage's input document). -/
structure TrackF where
  _id : Nat
  name : String
  img : String
  author : Nat
  playlist : Nat
  liked : Bool
  likedLength : Nat
  createdAt : Nat
deriving DecidableEq

/-- A ranked-pipeline output document, after `$lookup`/`$project`/`$unwind`
replaced the author id with the projected author document. -/
structure RTrack where
  _id : Nat
  name : String
  img : String
  playlist : Nat
  author : User
  liked : Bool
  likedLength : Nat
  createdAt : Nat
deriving DecidableEq

/-- A track after the liked-only pipeline's `$addFields { liked: true }`
stage (no `likedLength` is computed in that pipeline). -/
structure TrackB where
  _id : Nat
  name : String
  img : String
  author : Nat
  playlist : Nat
  liked : Bool
  createdAt : Nat
deriving DecidableEq

/-- A liked-only pipeline output document. -/
structure LTrack where
  _id : Nat
  name : String
  img : String
  playlist : Nat
  author : User
  liked : Bool
  createdAt : Nat
deriving DecidableEq

/-- A track after `getTracksByAuthor`'s `$lookup`/`$project`/`$unwind`,
which there run before `$addFields`, so `liked` is still the raw array. -/
structure TrackU where
  _id : Nat
  name : String
  img : String
  playlist : Nat
  author : User
  liked : List Nat
  createdAt : Nat
deriving DecidableEq

/-- The author fields excluded by the `$project` stage of every listing
pipeline. -/
def projectedOut : List String :=
  [("likedPlaylists"), ("likedTracks"), ("followers"),
   ("password"), ("email")]

/-- The `$project` stage applied to one author document: drop exactly the
blocklisted fields, keep everything else. -/
def projectAuthor (u : User) : User :=
  { u with fields := u.fields.filter (fun kv => !(projectedOut.contains kv.1)) }

/-- The `$addFields` stage of `getTracks` / `getTracksInPlaylist`:
`liked := requester ∈ liked`, `likedLength := size of liked`. -/
def addFieldsRanked (uid : Nat) (t : Track) : TrackF :=
  { _id := t._id, name := t.name, img := t.img, author := t.author,
    playlist := t.playlist, liked := t.liked.contains uid,
    likedLength := t.liked.length, createdAt := t.createdAt }

/-- The `$lookup from users` + `$project` + `$unwind` stages on an
`$addFields`-processed document: one output document per user whose `_id`
matches the author reference (an `$unwind` drops documents whose lookup
array is empty). -/
def lookupAuthorF (users : List User) (t : TrackF) : List RTrack :=
  ((users.filter (fun u => u._id == t.author)).map projectAuthor).map
    (fun u =>
      { _id := t._id, name := t.name, img := t.img, playlist := t.playlist,
        author := u, liked := t.liked, likedLength := t.likedLength,
        createdAt := t.createdAt })

/-- The same `$lookup` + `$project` + `$unwind` stages applied before any
`$addFields`, as in `getTracksByAuthor`. -/
def lookupAuthorRaw (users : List User) (t : Track) : List TrackU :=
  ((users.filter (fun u => u._id == t.author)).map projectAuthor).map
    (fun u =>
      { _id := t._id, name := t.name, img := t.img, playlist := t.playlist,
        author := u, liked := t.liked, createdAt := t.createdAt })

/-- `getTracksByAuthor`'s trailing `$addFields` stage. -/
def addFieldsRankedU (uid : Nat) (t : TrackU) : RTrack :=
  { _id := t._id, name := t.name, img := t.img, playlist := t.playlist,
    author := t.author, liked := t.liked.contains uid,
    likedLength := t.liked.length, createdAt := t.createdAt }

/-- The liked-only pipeline's `$addFields { liked: true }` stage. -/
def addFieldsLiked (t : Track) : TrackB :=
  { _id := t._id, name := t.name, img := t.img, author := t.author,
    playlist := t.playlist, liked := true, createdAt := t.createdAt }

/-- `$lookup` + `$project` + `$unwind` on a liked-only pipeline document. -/
def lookupAuthorB (users : List User) (t : TrackB) : List LTrack :=
  ((users.filter (fun u => u._id == t.author)).map projectAuthor).map
    (fun u =>
      { _id := t._id, name := t.name, img := t.img, playlist := t.playlist,
        author := u, liked := t.liked, createdAt := t.createdAt })

/-- Lexicographic "not larger" on the compound sort key
(likedLength, liked, createdAt), each component compared descending by
the `$sort { likedLength: -1, liked: -1, createdAt: -1 }` stage. -/
def lexLE (a b : Nat × Nat × Nat) : Prop :=
  a.1 < b.1 ∨ (a.1 = b.1 ∧ (a.2.1 < b.2.1 ∨ (a.2.1 = b.2.1 ∧ a.2.2 ≤ b.2.2)))

instance (a b : Nat × Nat × Nat) : Decidable (lexLE a b) := by
  unfold lexLE; infer_instance

/-- The compound sort key of the ranked pipelines' `$sort` stage. -/
def sortKey (t : RTrack) : Nat × Nat × Nat :=
  (t.likedLength, (if t.liked then 1 else 0), t.createdAt)

/-- `a` may precede `b` under `$sort { likedLength: -1, liked: -1,
createdAt: -1 }`: descending, so `b`'s key is lex-below `a`'s. -/
def rankLE (a b : RTrack) : Prop := lexLE (sortKey b) (sortKey a)

instance (a b : RTrack) : Decidable (rankLE a b) := by
  unfold rankLE; infer_instance

instance : IsTotal RTrack rankLE := by
  constructor
  intro a b
  unfold rankLE lexLE
  omega

instance : IsTrans RTrack rankLE := by
  constructor
  intro a b c hab hbc
  unfold rankLE lexLE at hab hbc ⊢
  omega

/-- `a` may precede `b` under the liked-only pipeline's
`$sort { createdAt: -1 }`. -/
def createdLE (a b : LTrack) : Prop := b.createdAt ≤ a.createdAt

instance (a b : LTrack) : Decidable (createdLE a b) := by
  unfold createdLE; infer_instance

instance : IsTotal LTrack createdLE := by
  constructor
  intro a b
  unfold createdLE
  omega

instance : IsTrans LTrack createdLE := by
  constructor
  intro a b c hab hbc
  unfold createdLE at hab hbc ⊢
  omega

/-- GET /tracks: the global ranked listing.  `page`/`limit` are the query
parameters (absent = `none`), defaulting to 1 and 10;
`skip = (page - 1) * limit`. -/
def getTracks (db : DB) (uid : Nat) (page limit : Option Nat) : List RTrack :=
  let p := page.getD 1
  let l := limit.getD 10
  let skip := (p - 1) * l
  let docs := (db.tracks.map (addFieldsRanked uid)).flatMap (lookupAuthorF db.users)
  ((List.insertionSort rankLE docs).drop skip).take l

/-- GET /tracks/playlist/:id: as `getTracks` with a leading
`$match { playlist: id }` stage. -/
def getTracksInPlaylist (db : DB) (uid pid : Nat) (page limit : Option Nat) :
    List RTrack :=
  let p := page.getD 1
  let l := limit.getD 10
  let skip := (p - 1) * l
  let matched := db.tracks.filter (fun t => t.playlist == pid)
  let docs := (matched.map (addFieldsRanked uid)).flatMap (lookupAuthorF db.users)
  ((List.insertionSort rankLE docs).drop skip).take l

/-- GET /tracks/liked: `$match` keeps the tracks whose liker array
contains the requester (the source writes the filter as a query-context
`$in` whose second listed value is an inert literal string, never an
ObjectId, so the predicate is requester membership), then
`$addFields { liked: true }`, lookup/project/unwind, and
`$sort { createdAt: -1 }`. -/
def getTracksLiked (db : DB) (uid : Nat) (page limit : Option Nat) :
    List LTrack :=
  let p := page.getD 1
  let l := limit.getD 10
  let skip := (p - 1) * l
  let matched := db.tracks.filter (fun t => t.liked.contains uid)
  let docs := (matched.map addFieldsLiked).flatMap (lookupAuthorB db.users)
  ((List.insertionSort createdLE docs).drop skip).take l

/-- GET /tracks/author/:id: `$match { author: id }`, then
lookup/project/unwind, then `$addFields`, then the ranked `$sort`. -/
def getTracksByAuthor (db : DB) (uid aid : Nat) (page limit : Option Nat) :
    List RTrack :=
  let p := page.getD 1
  let l := limit.getD 10
  let skip := (p - 1) * l
  let matched := db.tracks.filter (fun t => t.author == aid)
  let docs := (matched.flatMap (lookupAuthorRaw db.users)).map (addFieldsRankedU uid)
  ((List.insertionSort rankLE docs).drop skip).take l

/-- The global listing pipeline without its `$skip`/`$limit` stages: the
full filtered-and-sorted sequence the pagination claims slice. -/
def getTracksFull (db : DB) (uid : Nat) : List RTrack :=
  List.insertionSort rankLE
    ((db.tracks.map (addFieldsRanked uid)).flatMap (lookupAuthorF db.users))

/-- The playlist-scoped pipeline without `$skip`/`$limit`. -/
def getTracksInPlaylistFull (db : DB) (uid pid : Nat) : List RTrack :=
  List.insertionSort rankLE
    (((db.tracks.filter (fun t => t.playlist == pid)).map
        (addFieldsRanked uid)).flatMap (lookupAuthorF db.users))

/-- The liked-only pipeline without `$skip`/`$limit`. -/
def getTracksLikedFull (db : DB) (uid : Nat) : List LTrack :=
  List.insertionSort createdLE
    (((db.tracks.filter (fun t => t.liked.contains uid)).map
        addFieldsLiked).flatMap (lookupAuthorB db.users))

/-- The author-scoped pipeline without `$skip`/`$limit`. -/
def getTracksByAuthorFull (db : DB) (uid aid : Nat) : List RTrack :=
  List.insertionSort rankLE
    (((db.tracks.filter (fun t => t.author == aid)).flatMap
        (lookupAuthorRaw db.users)).map (addFieldsRankedU uid))

/-- `Track.findById`, `Playlist.findById`: first document with the id. -/
def findTrack (ts : List Track) (tid : Nat) : Option Track :=
  ts.find? (fun t => t._id == tid)

def findPlaylist (ps : List Playlist) (pid : Nat) : Option Playlist :=
  ps.find? (fun p => p._id == pid)

/-- `document.updateOne` / `document.update`: rewrite the (first) stored
document carrying the id. -/
def updateTrackById (ts : List Track) (tid : Nat) (f : Track → Track) :
    List Track :=
  match ts with
  | [] => []
  | t :: rest =>
      if t._id == tid then f t :: rest else t :: updateTrackById rest tid f

def updatePlaylistById (ps : List Playlist) (pid : Nat)
    (f : Playlist → Playlist) : List Playlist :=
  match ps with
  | [] => []
  | p :: rest =>
      if p._id == pid then f p :: rest else p :: updatePlaylistById rest pid f

/-- `document.remove()`: delete the (first) stored document with the id. -/
def removeTrackById (ts : List Track) (tid : Nat) : List Track :=
  match ts with
  | [] => []
  | t :: rest =>
      if t._id == tid then rest else t :: removeTrackById rest tid

/-- Mongo `$pull { liked: uid }`: remove every occurrence of `uid`. -/
def pullLiked (l : List Nat) (uid : Nat) : List Nat :=
  l.filter (fun x => !(x == uid))

/-- Mongo `$addToSet { liked: uid }`: append `uid` unless present. -/
def addToSetLiked (l : List Nat) (uid : Nat) : List Nat :=
  if l.contains uid then l else l ++ [uid]

/-- PUT /track/like/:id.  Looks the track up; 404 if absent; otherwise
`$pull`s the requester from the liker array when present, `$addToSet`s
otherwise, and responds with the post-toggle liked state `!liked`. -/
def putTrackLike (db : DB) (uid tid : Nat) :
    Except ApplicationError Bool × DB :=
  match findTrack db.tracks tid with
  | none => (Except.error ⟨("Track not found"), 404⟩, db)
  | some track =>
      let liked := track.liked.contains uid
      let newTracks :=
        if liked then
          updateTrackById db.tracks tid
            (fun t => { t with liked := pullLiked t.liked uid })
        else
          updateTrackById db.tracks tid
            (fun t => { t with liked := addToSetLiked t.liked uid })
      (Except.ok (!liked), { db with tracks := newTracks })

/-- POST /track/:id.  Validates a non-empty `name` (validator `isEmpty`
is the length-zero test; a missing body field is falsy), 404s when the
playlist is absent, otherwise creates the track (inheriting the
playlist's image, owned by the requester, empty liker array) and
`$push`es its id onto the playlist's track sequence.  `newId` and `now`
stand for the store-generated ObjectId and timestamp. -/
def postTrack (db : DB) (uid pid : Nat) (name : Option String)
    (newId now : Nat) : Except ApplicationError Track × DB :=
  match name with
  | none => (Except.error ⟨("Name is not valid"), 404⟩, db)
  | some s =>
      if s.length == 0 then
        (Except.error ⟨("Name is not valid"), 404⟩, db)
      else
        match findPlaylist db.playlists pid with
        | none => (Except.error ⟨("Playlist not found"), 404⟩, db)
        | some playlist =>
            let track : Track :=
              { _id := newId, name := s, img := playlist.img, author := uid,
                playlist := playlist._id, liked := [], createdAt := now }
            let newPlaylists :=
              updatePlaylistById db.playlists pid
                (fun p => { p with tracks := p.tracks ++ [track._id] })
            (Except.ok track,
             { db with tracks := db.tracks ++ [track],
                       playlists := newPlaylists })

/-- DELETE /track/:id.  404 (message `Playlist not found` in the
source) when the track is absent; 403 when the requester is neither the
author nor role ADMIN; otherwise removes the track and responds with its
prior representation. -/
def deleteTrack (db : DB) (uid : Nat) (role : String) (tid : Nat) :
    Except ApplicationError Track × DB :=
  match findTrack db.tracks tid with
  | none => (Except.error ⟨("Playlist not found"), 404⟩, db)
  | some track =>
      if track.author ≠ uid ∧ role ≠ ("ADMIN") then
        (Except.error ⟨("Dont have permission"), 403⟩, db)
      else
        (Except.ok track, { db with tracks := removeTrackById db.tracks tid })

/-- The store invariant of the spec: every track's liker array holds each
id at most once. -/
def LikedNodup (db : DB) : Prop :=
  ∀ t ∈ db.tracks, t.liked.Nodup

/-- UTF-8 encoding of one character, as `crypto.createHash.update`
encodes the hashed string. -/
def charUtf8 (c : Char) : List Nat :=
  let n := c.toNat
  if n < 128 then [n]
  else if n < 2048 then
    [192 ||| (n >>> 6), 128 ||| (n &&& 63)]
  else if n < 65536 then
    [224 ||| (n >>> 12), 128 ||| ((n >>> 6) &&& 63), 128 ||| (n &&& 63)]
  else
    [240 ||| (n >>> 18), 128 ||| ((n >>> 12) &&& 63),
     128 ||| ((n >>> 6) &&& 63), 128 ||| (n &&& 63)]

def strUtf8 (s : String) : List Nat :=
  s.data.flatMap charUtf8

/-- Truncation to a 32-bit word. -/
def m32 (x : Nat) : Nat := x % 4294967296

/-- 32-bit left rotation (operand below 2 ^ 32). -/
def rotl32 (x s : Nat) : Nat :=
  m32 (x <<< s) ||| (x >>> (32 - s))

/-- The 64 MD5 round constants, floor of abs(sin(i + 1)) * 2 ^ 32. -/
def md5K : List Nat :=
  [3614090360, 3905402710, 606105819, 3250441966, 4118548399, 1200080426,
   2821735955, 4249261313, 1770035416, 2336552879, 4294925233, 2304563134,
   1804603682, 4254626195, 2792965006, 1236535329, 4129170786, 3225465664,
   643717713, 3921069994, 3593408605, 38016083, 3634488961, 3889429448,
   568446438, 3275163606, 4107603335, 1163531501, 2850285829, 4243563512,
   1735328473, 2368359562, 4294588738, 2272392833, 1839030562, 4259657740,
   2763975236, 1272893353, 4139469664, 3200236656, 681279174, 3936430074,
   3572445317, 76029189, 3654602809, 3873151461, 530742520, 3299628645,
   4096336452, 1126891415, 2878612391, 4237533241, 1700485571, 2399980690,
   4293915773, 2240044497, 1873313359, 4264355552, 2734768916, 1309151649,
   4149444226, 3174756917, 718787259, 3951481745]

/-- The 64 MD5 per-round left-rotation amounts. -/
def md5S : List Nat :=
  [7, 12, 17, 22, 7, 12, 17, 22, 7, 12, 17, 22, 7, 12, 17, 22,
   5, 9, 14, 20, 5, 9, 14, 20, 5, 9, 14, 20, 5, 9, 14, 20,
   4, 11, 16, 23, 4, 11, 16, 23, 4, 11, 16, 23, 4, 11, 16, 23,
   6, 10, 15, 21, 6, 10, 15, 21, 6, 10, 15, 21, 6, 10, 15, 21]

/-- MD5 message padding: a 0x80 byte, zeros to 56 mod 64, then the
original bit length as eight little-endian bytes. -/
def md5Pad (msg : List Nat) : List Nat :=
  let len := msg.length
  let zeros := (120 - ((len + 1) % 64)) % 64
  let bitLen := (len * 8) % 18446744073709551616
  msg ++ [128] ++ List.replicate zeros 0 ++
    ((List.range 8).map (fun i => (bitLen >>> (8 * i)) &&& 255))

/-- Split the padded message into the 16 little-endian 32-bit words of
each 64-byte chunk. -/
def md5Words (chunk : List Nat) : List Nat :=
  (List.range 16).map (fun j =>
    (chunk.getD (4 * j) 0) + 256 * (chunk.getD (4 * j + 1) 0) +
      65536 * (chunk.getD (4 * j + 2) 0) +
      16777216 * (chunk.getD (4 * j + 3) 0))

/-- One MD5 round: nonlinear function, message-word schedule, rotation. -/
def md5Round (M : List Nat) (st : Nat × Nat × Nat × Nat) (i : Nat) :
    Nat × Nat × Nat × Nat :=
  let a := st.1
  let b := st.2.1
  let c := st.2.2.1
  let d := st.2.2.2
  let f :=
    if i < 16 then (b &&& c) ||| ((4294967295 - b) &&& d)
    else if i < 32 then (d &&& b) ||| ((4294967295 - d) &&& c)
    else if i < 48 then (b ^^^ c) ^^^ d
    else c ^^^ (b ||| (4294967295 - d))
  let g :=
    if i < 16 then i
    else if i < 32 then (5 * i + 1) % 16
    else if i < 48 then (3 * i + 5) % 16
    else (7 * i) % 16
  let tmp := m32 (f + a + md5K.getD i 0 + M.getD g 0)
  (d, m32 (b + rotl32 tmp (md5S.getD i 0)), b, c)

/-- Process one 64-byte chunk against the running state. -/
def md5Chunk (st : Nat × Nat × Nat × Nat) (chunk : List Nat) :
    Nat × Nat × Nat × Nat :=
  let M := md5Words chunk
  let r := (List.range 64).foldl (md5Round M) st
  (m32 (st.1 + r.1), m32 (st.2.1 + r.2.1),
   m32 (st.2.2.1 + r.2.2.1), m32 (st.2.2.2 + r.2.2.2))

def chunks64 (l : List Nat) : List (List Nat) :=
  (List.range (l.length / 64)).map (fun i => (l.drop (64 * i)).take 64)

/-- Lowercase hexadecimal digit. -/
def hexDigit (n : Nat) : Char :=
  if n < 10 then Char.ofNat (48 + n) else Char.ofNat (87 + n)

/-- A 32-bit word as eight lowercase hex digits, little-endian by byte. -/
def wordHexLE (w : Nat) : List Char :=
  (List.range 4).flatMap (fun i =>
    let byte := (w >>> (8 * i)) &&& 255
    [hexDigit (byte >>> 4), hexDigit (byte &&& 15)])

/-- MD5 digest of a string, as the 32 lowercase hex characters produced
by `crypto.createHash(md5).update(email).digest(hex)`. -/
def md5Hex (s : String) : String :=
  let padded := md5Pad (strUtf8 s)
  let st := (chunks64 padded).foldl md5Chunk
    (1732584193, 4023233417, 2562383102, 271733878)
  String.mk (wordHexLE st.1 ++ wordHexLE st.2.1 ++
    wordHexLE st.2.2.1 ++ wordHexLE st.2.2.2)

/-- The user model's gravatar method.  `email` is the document's email
field (`none` = unset; the source's falsy test also treats the empty
string as unset); `size` is the optional argument defaulting to 200. -/
def gravatar (email : Option String) (size : Option Nat) : String :=
  let sz := size.getD 200
  let present := match email with
    | none => false
    | some e => !(e.length == 0)
  if !present then
    ("https://gravatar.com/avatar/?s=") ++ toString sz ++ ("&d=retro")
  else
    ("https://gravatar.com/avatar/") ++ md5Hex (email.getD ("")) ++
      ("?s=") ++ toString sz ++ ("&d=retro")

/-- The pairwise ordering the ranked listings' claims assert: strictly
more-liked first; at equal like counts, requester-liked first; at equal
like counts and liked flags, newest first. -/
def rankedAbove (a b : RTrack) : Prop :=
  b.likedLength < a.likedLength ∨
    (b.likedLength = a.likedLength ∧
      ((a.liked = true ∧ b.liked = false) ∨
        (a.liked = b.liked ∧ b.createdAt ≤ a.createdAt)))

/-- Concrete store used to instantiate the witnesses: two users, one
playlist, five tracks with like counts 5, 5, 3, 1, 0 where the requester
(id 7) liked the second five-liked track and the one-liked track. -/
def exAlice : User :=
  ⟨1, [(("email"), ("a@b.c")), (("password"), ("secret")),
       (("followers"), ("20")), (("likedPlaylists"), ("x")),
       (("likedTracks"), ("y")), (("name"), ("Alice"))]⟩

def exBob : User := ⟨2, [(("password"), ("hunter2")), (("name"), ("Bob"))]⟩

def exPl : Playlist := ⟨10, ("img10"), [100, 101, 102, 103, 104]⟩

def exT1 : Track := ⟨100, ("Track A"), ("img10"), 1, 10, [20, 21, 22, 23, 24], 50⟩

def exT2 : Track := ⟨101, ("Track B"), ("img10"), 2, 10, [7, 20, 21, 22, 23], 40⟩

def exT3 : Track := ⟨102, ("Track C"), ("img10"), 1, 10, [20, 21, 22], 30⟩

def exT4 : Track := ⟨103, ("Track D"), ("img10"), 2, 10, [7], 20⟩

def exT5 : Track := ⟨104, ("Track E"), ("img10"), 1, 10, [], 10⟩

def exDB : DB := ⟨[exAlice, exBob], [exPl], [exT1, exT2, exT3, exT4, exT5]⟩

/-- The liked-only listing document derived from `exT2`. -/
def exL2 : LTrack :=
  ⟨101, ("Track B"), ("img10"), 10, ⟨2, [(("name"), ("Bob"))]⟩, true, 40⟩

/-- The ranked listing document derived from `exT2`. -/
def exR2 : RTrack :=
  ⟨101, ("Track B"), ("img10"), 10, ⟨2, [(("name"), ("Bob"))]⟩, true, 5, 40⟩

theorem pairwise_take_drop {α : Type} {R : α → α → Prop} {l : List α}
    (h : List.Pairwise R l) (n m : Nat) :
    List.Pairwise R ((l.drop n).take m) :=
  List.Pairwise.sublist
    ((List.take_sublist m (l.drop n)).trans (List.drop_sublist n l)) h

theorem rankLE_above {a b : RTrack} (h : rankLE a b) : rankedAbove a b := by
  unfold rankLE lexLE sortKey at h
  unfold rankedAbove
  cases ha : a.liked <;> cases hb : b.liked <;> simp [ha, hb] at h ⊢ <;> omega

theorem pairwise_rankedAbove_sortSlice (docs : List RTrack) (n m : Nat) :
    List.Pairwise rankedAbove (((List.insertionSort rankLE docs).drop n).take m) :=
  pairwise_take_drop
    (List.Pairwise.imp (fun h => rankLE_above h)
      (List.sorted_insertionSort rankLE docs)) n m

/-- C1: in the global, playlist-scoped and author-scoped listings, any
track with strictly more likes precedes one with fewer; at equal like
counts a requester-liked track precedes a non-liked one; at equal like
counts and liked flags, the newer track precedes the older. -/
theorem ranked_listings_ordered (db : DB) (uid pid aid : Nat)
    (page limit : Option Nat) :
    List.Pairwise rankedAbove (getTracks db uid page limit) ∧
    List.Pairwise rankedAbove (getTracksInPlaylist db uid pid page limit) ∧
    List.Pairwise rankedAbove (getTracksByAuthor db uid aid page limit) := by
  refine ⟨?_, ?_, ?_⟩ <;>
    simp only [getTracks, getTracksInPlaylist, getTracksByAuthor] <;>
    exact pairwise_rankedAbove_sortSlice _ _ _

/-- Sanity check: the worked example of the spec (five tracks with like
counts 5, 5, 3, 1, 0, requester liked the second five-liked track) yields
page 1 of size 2 as the liked five-track then the unliked five-track. -/
theorem getTracks_spec_example :
    (getTracks exDB 7 (some 1) (some 2)).map (fun r => (r._id, r.liked)) =
      [(101, true), (100, false)] := by decide

/-- C2: every liked-only listing entry derives from a stored track whose
liker set contains the requester, carries `liked = true`, and the page is
ordered by creation time descending alone. -/
theorem liked_listing_spec (db : DB) (uid : Nat) (page limit : Option Nat) :
    (∀ r ∈ getTracksLiked db uid page limit,
        r.liked = true ∧
          ∃ t ∈ db.tracks,
            uid ∈ t.liked ∧ r._id = t._id ∧ r.createdAt = t.createdAt) ∧
    List.Pairwise (fun a b => b.createdAt ≤ a.createdAt)
      (getTracksLiked db uid page limit) := by
  constructor
  · intro r hr
    simp only [getTracksLiked] at hr
    have hr2 := List.mem_of_mem_drop (List.mem_of_mem_take hr)
    have hr3 := (List.perm_insertionSort createdLE _).subset hr2
    rw [List.mem_flatMap] at hr3
    obtain ⟨tb, htb, hrtb⟩ := hr3
    rw [List.mem_map] at htb
    obtain ⟨t, ht, rfl⟩ := htb
    rw [List.mem_filter] at ht
    obtain ⟨htmem, hcont⟩ := ht
    simp only [lookupAuthorB, addFieldsLiked, List.mem_map] at hrtb
    obtain ⟨u, hu, rfl⟩ := hrtb
    exact ⟨rfl, t, htmem, by simpa using hcont, rfl, rfl⟩
  · simp only [getTracksLiked]
    exact pairwise_take_drop
      (List.Pairwise.imp (fun h => h)
        (List.sorted_insertionSort createdLE _)) _ _

/-- Witness for C2 at the concrete store: the entry derived from the
requester-liked track 101. -/
theorem liked_listing_spec_witness :
    exL2.liked = true ∧
      ∃ t ∈ exDB.tracks,
        7 ∈ t.liked ∧ exL2._id = t._id ∧ exL2.createdAt = t.createdAt :=
  (liked_listing_spec exDB 7 none none).1 exL2 (by decide)

/-- C3: every listing equals the `(page - 1) * limit` offset slice of its
full filtered-and-sorted sequence, holds at most `limit` entries, and an
absent page/limit behaves as page 1 / limit 10.  The hypotheses restrict
to the 1-based pages and positive limits on which the source pipeline is
defined. -/
theorem pagination_spec (db : DB) (uid pid aid : Nat) (page limit : Option Nat)
    (hp : 1 ≤ page.getD 1) (hl : 1 ≤ limit.getD 10) :
    (getTracks db uid page limit =
        ((getTracksFull db uid).drop
          ((page.getD 1 - 1) * limit.getD 10)).take (limit.getD 10) ∧
      (getTracks db uid page limit).length ≤ limit.getD 10 ∧
      getTracks db uid none none = getTracks db uid (some 1) (some 10)) ∧
    (getTracksInPlaylist db uid pid page limit =
        ((getTracksInPlaylistFull db uid pid).drop
          ((page.getD 1 - 1) * limit.getD 10)).take (limit.getD 10) ∧
      (getTracksInPlaylist db uid pid page limit).length ≤ limit.getD 10 ∧
      getTracksInPlaylist db uid pid none none =
        getTracksInPlaylist db uid pid (some 1) (some 10)) ∧
    (getTracksLiked db uid page limit =
        ((getTracksLikedFull db uid).drop
          ((page.getD 1 - 1) * limit.getD 10)).take (limit.getD 10) ∧
      (getTracksLiked db uid page limit).length ≤ limit.getD 10 ∧
      getTracksLiked db uid none none = getTracksLiked db uid (some 1) (some 10)) ∧
    (getTracksByAuthor db uid aid page limit =
        ((getTracksByAuthorFull db uid aid).drop
          ((page.getD 1 - 1) * limit.getD 10)).take (limit.getD 10) ∧
      (getTracksByAuthor db uid aid page limit).length ≤ limit.getD 10 ∧
      getTracksByAuthor db uid aid none none =
        getTracksByAuthor db uid aid (some 1) (some 10)) := by
  refine ⟨⟨rfl, ?_, rfl⟩, ⟨rfl, ?_, rfl⟩, ⟨rfl, ?_, rfl⟩, ⟨rfl, ?_, rfl⟩⟩ <;>
    simp only [getTracks, getTracksInPlaylist, getTracksLiked,
      getTracksByAuthor] <;>
    exact List.length_take_le _ _

/-- Witness for C3 at the concrete store, page 2 of size 2. -/
theorem pagination_spec_witness :
    (getTracks exDB 7 (some 2) (some 2)).length ≤ 2 :=
  (pagination_spec exDB 7 10 1 (some 2) (some 2) (by decide) (by decide)).1.2.1

theorem projectAuthor_fields {u : User} {kv : String × String}
    (h : kv ∈ (projectAuthor u).fields) :
    kv.1 ≠ ("password") ∧ kv.1 ≠ ("email") ∧ kv.1 ≠ ("followers") ∧
      kv.1 ≠ ("likedPlaylists") ∧ kv.1 ≠ ("likedTracks") := by
  simp only [projectAuthor, List.mem_filter, projectedOut] at h
  obtain ⟨-, hnot⟩ := h
  simp at hnot
  tauto

theorem author_of_mem_lookupF {users : List User} {t : TrackF} {r : RTrack}
    (h : r ∈ lookupAuthorF users t) : ∃ u, r.author = projectAuthor u := by
  simp only [lookupAuthorF, List.mem_map] at h
  obtain ⟨u1, ⟨u, hu, rfl⟩, rfl⟩ := h
  exact ⟨u, rfl⟩

theorem author_of_mem_lookupB {users : List User} {t : TrackB} {r : LTrack}
    (h : r ∈ lookupAuthorB users t) : ∃ u, r.author = projectAuthor u := by
  simp only [lookupAuthorB, List.mem_map] at h
  obtain ⟨u1, ⟨u, hu, rfl⟩, rfl⟩ := h
  exact ⟨u, rfl⟩

theorem author_of_mem_lookupRaw {users : List User} {t : Track} {r : TrackU}
    (h : r ∈ lookupAuthorRaw users t) : ∃ u, r.author = projectAuthor u := by
  simp only [lookupAuthorRaw, List.mem_map] at h
  obtain ⟨u1, ⟨u, hu, rfl⟩, rfl⟩ := h
  exact ⟨u, rfl⟩

theorem author_projected_getTracks {db : DB} {uid : Nat}
    {page limit : Option Nat} {r : RTrack}
    (h : r ∈ getTracks db uid page limit) :
    ∃ u, r.author = projectAuthor u := by
  simp only [getTracks] at h
  have h2 := (List.perm_insertionSort rankLE _).subset
    (List.mem_of_mem_drop (List.mem_of_mem_take h))
  rw [List.mem_flatMap] at h2
  obtain ⟨tf, -, hr⟩ := h2
  exact author_of_mem_lookupF hr

theorem author_projected_getTracksInPlaylist {db : DB} {uid pid : Nat}
    {page limit : Option Nat} {r : RTrack}
    (h : r ∈ getTracksInPlaylist db uid pid page limit) :
    ∃ u, r.author = projectAuthor u := by
  simp only [getTracksInPlaylist] at h
  have h2 := (List.perm_insertionSort rankLE _).subset
    (List.mem_of_mem_drop (List.mem_of_mem_take h))
  rw [List.mem_flatMap] at h2
  obtain ⟨tf, -, hr⟩ := h2
  exact author_of_mem_lookupF hr

theorem author_projected_getTracksLiked {db : DB} {uid : Nat}
    {page limit : Option Nat} {r : LTrack}
    (h : r ∈ getTracksLiked db uid page limit) :
    ∃ u, r.author = projectAuthor u := by
  simp only [getTracksLiked] at h
  have h2 := (List.perm_insertionSort createdLE _).subset
    (List.mem_of_mem_drop (List.mem_of_mem_take h))
  rw [List.mem_flatMap] at h2
  obtain ⟨tb, -, hr⟩ := h2
  exact author_of_mem_lookupB hr

theorem author_projected_getTracksByAuthor {db : DB} {uid aid : Nat}
    {page limit : Option Nat} {r : RTrack}
    (h : r ∈ getTracksByAuthor db uid aid page limit) :
    ∃ u, r.author = projectAuthor u := by
  simp only [getTracksByAuthor] at h
  have h2 := (List.perm_insertionSort rankLE _).subset
    (List.mem_of_mem_drop (List.mem_of_mem_take h))
  rw [List.mem_map] at h2
  obtain ⟨tu, htu, rfl⟩ := h2
  rw [List.mem_flatMap] at htu
  obtain ⟨t, -, hr⟩ := htu
  obtain ⟨u, hu⟩ := author_of_mem_lookupRaw hr
  exact ⟨u, hu⟩

/-- C4: in every listing, the embedded author summary carries no
password, email, followers, likedPlaylists or likedTracks field. -/
theorem author_fields_hidden (db : DB) (uid pid aid : Nat)
    (page limit : Option Nat) :
    (∀ r ∈ getTracks db uid page limit, ∀ kv ∈ r.author.fields,
        kv.1 ≠ ("password") ∧ kv.1 ≠ ("email") ∧ kv.1 ≠ ("followers") ∧
          kv.1 ≠ ("likedPlaylists") ∧ kv.1 ≠ ("likedTracks")) ∧
    (∀ r ∈ getTracksInPlaylist db uid pid page limit, ∀ kv ∈ r.author.fields,
        kv.1 ≠ ("password") ∧ kv.1 ≠ ("email") ∧ kv.1 ≠ ("followers") ∧
          kv.1 ≠ ("likedPlaylists") ∧ kv.1 ≠ ("likedTracks")) ∧
    (∀ r ∈ getTracksLiked db uid page limit, ∀ kv ∈ r.author.fields,
        kv.1 ≠ ("password") ∧ kv.1 ≠ ("email") ∧ kv.1 ≠ ("followers") ∧
          kv.1 ≠ ("likedPlaylists") ∧ kv.1 ≠ ("likedTracks")) ∧
    (∀ r ∈ getTracksByAuthor db uid aid page limit, ∀ kv ∈ r.author.fields,
        kv.1 ≠ ("password") ∧ kv.1 ≠ ("email") ∧ kv.1 ≠ ("followers") ∧
          kv.1 ≠ ("likedPlaylists") ∧ kv.1 ≠ ("likedTracks")) := by
  refine ⟨fun r hr kv hkv => ?_, fun r hr kv hkv => ?_,
    fun r hr kv hkv => ?_, fun r hr kv hkv => ?_⟩
  · obtain ⟨u, hau⟩ := author_projected_getTracks hr
    rw [hau] at hkv
    exact projectAuthor_fields hkv
  · obtain ⟨u, hau⟩ := author_projected_getTracksInPlaylist hr
    rw [hau] at hkv
    exact projectAuthor_fields hkv
  · obtain ⟨u, hau⟩ := author_projected_getTracksLiked hr
    rw [hau] at hkv
    exact projectAuthor_fields hkv
  · obtain ⟨u, hau⟩ := author_projected_getTracksByAuthor hr
    rw [hau] at hkv
    exact projectAuthor_fields hkv

/-- Witness for C4 at the concrete store: the surviving public field of
track 101's author summary. -/
theorem author_fields_hidden_witness :
    (("name"), ("Bob")).1 ≠ ("password") ∧
      (("name"), ("Bob")).1 ≠ ("email") ∧
      (("name"), ("Bob")).1 ≠ ("followers") ∧
      (("name"), ("Bob")).1 ≠ ("likedPlaylists") ∧
      (("name"), ("Bob")).1 ≠ ("likedTracks") :=
  (author_fields_hidden exDB 7 10 1 none none).1 exR2 (by decide)
    ((("name"), ("Bob"))) (by decide)


theorem findTrack_updateTrackById (ts : List Track) (tid : Nat)
    (f : Track → Track) (hf : ∀ x, (f x)._id = x._id) (t : Track)
    (h : findTrack ts tid = some t) :
    findTrack (updateTrackById ts tid f) tid = some (f t) := by
  induction ts with
  | nil => simp [findTrack] at h
  | cons t0 rest ih =>
      by_cases h0 : (t0._id == tid) = true
      · have h1 : findTrack (t0 :: rest) tid = some t0 := by
          simp [findTrack, List.find?_cons_of_pos, h0]
        rw [h1] at h
        injection h with h
        subst h
        have h2 : ((f t0)._id == tid) = true := by rw [hf t0]; exact h0
        simp [updateTrackById, h0, findTrack, List.find?_cons_of_pos, h2]
      · have h1 : findTrack (t0 :: rest) tid = findTrack rest tid := by
          simp [findTrack, List.find?_cons_of_neg, h0]
        rw [h1] at h
        have h2 : updateTrackById (t0 :: rest) tid f =
            t0 :: updateTrackById rest tid f := by
          simp [updateTrackById, h0]
        rw [h2]
        have h3 : findTrack (t0 :: updateTrackById rest tid f) tid =
            findTrack (updateTrackById rest tid f) tid := by
          simp [findTrack, List.find?_cons_of_neg, h0]
        rw [h3]
        exact ih h

theorem mem_pullLiked {l : List Nat} {uid v : Nat} :
    v ∈ pullLiked l uid ↔ v ∈ l ∧ v ≠ uid := by
  simp [pullLiked]

theorem mem_addToSetLiked {l : List Nat} {uid v : Nat} :
    v ∈ addToSetLiked l uid ↔ v ∈ l ∨ v = uid := by
  unfold addToSetLiked
  by_cases h : l.contains uid = true
  · simp only [h, if_true]
    constructor
    · exact Or.inl
    · rintro (hv | rfl)
      · exact hv
      · exact List.mem_of_elem_eq_true h
  · simp only [h, Bool.false_eq_true, if_false, List.mem_append,
      List.mem_singleton]

theorem contains_pullLiked (l : List Nat) (uid : Nat) :
    ((pullLiked l uid).contains uid) = false := by
  simp [mem_pullLiked]

theorem contains_addToSetLiked (l : List Nat) (uid : Nat) :
    ((addToSetLiked l uid).contains uid) = true := by
  simp [mem_addToSetLiked]

theorem putTrackLike_found_liked (db : DB) (uid tid : Nat) (t : Track)
    (ht : findTrack db.tracks tid = some t)
    (hc : t.liked.contains uid = true) :
    putTrackLike db uid tid =
      (Except.ok false,
        ⟨db.users, db.playlists,
          updateTrackById db.tracks tid
            (fun x => { x with liked := pullLiked x.liked uid })⟩) := by
  have hm : uid ∈ t.liked := List.mem_of_elem_eq_true hc
  simp [putTrackLike, ht, hc]
  exact ⟨hm, fun h => absurd hm h⟩

theorem putTrackLike_found_unliked (db : DB) (uid tid : Nat) (t : Track)
    (ht : findTrack db.tracks tid = some t)
    (hc : t.liked.contains uid = false) :
    putTrackLike db uid tid =
      (Except.ok true,
        ⟨db.users, db.playlists,
          updateTrackById db.tracks tid
            (fun x => { x with liked := addToSetLiked x.liked uid })⟩) := by
  have hm : ¬ uid ∈ t.liked := by simpa using hc
  simp [putTrackLike, ht, hc]
  exact ⟨hm, fun h => absurd h hm⟩

/-- C5: toggling a like on a missing track yields the 404 not-found
error and leaves the store untouched; on a present track it answers the
post-toggle liked state, flips the requester's membership in the liker
set, and a second toggle restores the original membership state of the
liker set for every user. -/
theorem toggle_like_spec (db : DB) (uid tid : Nat) :
    (findTrack db.tracks tid = none →
      putTrackLike db uid tid = (Except.error ⟨("Track not found"), 404⟩, db)) ∧
    (∀ t, findTrack db.tracks tid = some t →
      (putTrackLike db uid tid).1 = Except.ok (!(t.liked.contains uid)) ∧
      (∃ t1, findTrack (putTrackLike db uid tid).2.tracks tid = some t1 ∧
        ((uid ∈ t1.liked) ↔ ¬ uid ∈ t.liked)) ∧
      (∃ t2,
        findTrack (putTrackLike (putTrackLike db uid tid).2 uid tid).2.tracks
            tid = some t2 ∧
          ∀ v, v ∈ t2.liked ↔ v ∈ t.liked)) := by
  constructor
  · intro h
    simp [putTrackLike, h]
  · intro t ht
    by_cases hc : t.liked.contains uid = true
    · have hm : uid ∈ t.liked := List.mem_of_elem_eq_true hc
      have hstep1 := putTrackLike_found_liked db uid tid t ht hc
      have hf1 : findTrack (putTrackLike db uid tid).2.tracks tid =
          some { t with liked := pullLiked t.liked uid } := by
        rw [hstep1]
        exact findTrack_updateTrackById db.tracks tid
          (fun x => { x with liked := pullLiked x.liked uid })
          (fun x => rfl) t ht
      have hstep2 := putTrackLike_found_unliked (putTrackLike db uid tid).2
        uid tid { t with liked := pullLiked t.liked uid } hf1
        (contains_pullLiked t.liked uid)
      refine ⟨by rw [hstep1]; simp [hm], ?_, ?_⟩
      · refine ⟨{ t with liked := pullLiked t.liked uid }, hf1, ?_⟩
        simp [mem_pullLiked, hm]
      · refine ⟨{ t with liked := addToSetLiked (pullLiked t.liked uid) uid },
          ?_, ?_⟩
        · rw [hstep2]
          exact findTrack_updateTrackById (putTrackLike db uid tid).2.tracks
            tid (fun x => { x with liked := addToSetLiked x.liked uid })
            (fun x => rfl) _ hf1
        · intro v
          simp only [mem_addToSetLiked, mem_pullLiked]
          by_cases hv : v = uid <;> simp [hv, hm]
    · have hcf : t.liked.contains uid = false := by
        exact Bool.not_eq_true _ ▸ eq_false_of_ne_true hc
      have hm : ¬ uid ∈ t.liked := fun h => hc (List.elem_eq_true_of_mem h)
      have hstep1 := putTrackLike_found_unliked db uid tid t ht hcf
      have hf1 : findTrack (putTrackLike db uid tid).2.tracks tid =
          some { t with liked := addToSetLiked t.liked uid } := by
        rw [hstep1]
        exact findTrack_updateTrackById db.tracks tid
          (fun x => { x with liked := addToSetLiked x.liked uid })
          (fun x => rfl) t ht
      have hstep2 := putTrackLike_found_liked (putTrackLike db uid tid).2
        uid tid { t with liked := addToSetLiked t.liked uid } hf1
        (contains_addToSetLiked t.liked uid)
      refine ⟨by rw [hstep1]; simp [hm], ?_, ?_⟩
      · refine ⟨{ t with liked := addToSetLiked t.liked uid }, hf1, ?_⟩
        simp [mem_addToSetLiked, hm]
      · refine ⟨{ t with liked := pullLiked (addToSetLiked t.liked uid) uid },
          ?_, ?_⟩
        · rw [hstep2]
          exact findTrack_updateTrackById (putTrackLike db uid tid).2.tracks
            tid (fun x => { x with liked := pullLiked x.liked uid })
            (fun x => rfl) _ hf1
        · intro v
          simp only [mem_addToSetLiked, mem_pullLiked]
          by_cases hv : v = uid <;> simp [hv, hm]

/-- Witness for C5 at the concrete store: toggling track 100, which the
requester has not yet liked, answers `true`. -/
theorem toggle_like_spec_witness :
    (putTrackLike exDB 7 100).1 = Except.ok (!(exT1.liked.contains 7)) :=
  ((toggle_like_spec exDB 7 100).2 exT1 (by decide)).1

theorem findPlaylist_updatePlaylistById (ps : List Playlist) (pid : Nat)
    (f : Playlist → Playlist) (hf : ∀ x, (f x)._id = x._id) (p : Playlist)
    (h : findPlaylist ps pid = some p) :
    findPlaylist (updatePlaylistById ps pid f) pid = some (f p) := by
  induction ps with
  | nil => simp [findPlaylist] at h
  | cons p0 rest ih =>
      by_cases h0 : (p0._id == pid) = true
      · have h1 : findPlaylist (p0 :: rest) pid = some p0 := by
          simp [findPlaylist, List.find?_cons_of_pos, h0]
        rw [h1] at h
        injection h with h
        subst h
        have h2 : ((f p0)._id == pid) = true := by rw [hf p0]; exact h0
        simp [updatePlaylistById, h0, findPlaylist, List.find?_cons_of_pos, h2]
      · have h1 : findPlaylist (p0 :: rest) pid = findPlaylist rest pid := by
          simp [findPlaylist, List.find?_cons_of_neg, h0]
        rw [h1] at h
        have h2 : updatePlaylistById (p0 :: rest) pid f =
            p0 :: updatePlaylistById rest pid f := by
          simp [updatePlaylistById, h0]
        rw [h2]
        have h3 : findPlaylist (p0 :: updatePlaylistById rest pid f) pid =
            findPlaylist (updatePlaylistById rest pid f) pid := by
          simp [findPlaylist, List.find?_cons_of_neg, h0]
        rw [h3]
        exact ih h

theorem stringLengthZero {s : String} : s.length = 0 ↔ s = ("") := by
  constructor
  · intro h
    cases s with
    | mk data =>
        simp [String.length] at h
        simp [h]
  · intro h
    simp [h]

/-- C6: posting a track with a missing or empty name fails with the
validation error and leaves the store untouched; naming a missing
playlist fails with the 404 not-found error and leaves the store
untouched; otherwise the created track is owned by the requester, has an
empty liker set, inherits the playlist's image, its id is appended to the
playlist's track sequence, and the track is returned. -/
theorem post_track_spec (db : DB) (uid pid newId now : Nat) :
    (postTrack db uid pid none newId now =
      (Except.error ⟨("Name is not valid"), 404⟩, db)) ∧
    (postTrack db uid pid (some ("")) newId now =
      (Except.error ⟨("Name is not valid"), 404⟩, db)) ∧
    (∀ s : String, s ≠ ("") → findPlaylist db.playlists pid = none →
      postTrack db uid pid (some s) newId now =
        (Except.error ⟨("Playlist not found"), 404⟩, db)) ∧
    (∀ (s : String) (p : Playlist), s ≠ ("") →
      findPlaylist db.playlists pid = some p →
      ∃ tr : Track,
        postTrack db uid pid (some s) newId now =
          (Except.ok tr,
            ⟨db.users,
              updatePlaylistById db.playlists pid
                (fun q => { q with tracks := q.tracks ++ [tr._id] }),
              db.tracks ++ [tr]⟩) ∧
        tr.name = s ∧ tr.img = p.img ∧ tr.author = uid ∧
        tr.playlist = p._id ∧ tr.liked = ([] : List Nat) ∧
        (∃ p2, findPlaylist
            (postTrack db uid pid (some s) newId now).2.playlists pid =
              some p2 ∧ p2.tracks = p.tracks ++ [tr._id])) := by
  refine ⟨rfl, rfl, ?_, ?_⟩
  · intro s hs hp
    have hb : (s.length == 0) = false := by
      simp only [beq_eq_false_iff_ne, ne_eq]
      exact fun hh => hs (stringLengthZero.mp hh)
    simp [postTrack, hb, hp]
  · intro s p hs hp
    have hb : (s.length == 0) = false := by
      simp only [beq_eq_false_iff_ne, ne_eq]
      exact fun hh => hs (stringLengthZero.mp hh)
    have hstep : postTrack db uid pid (some s) newId now =
        (Except.ok
          ({ _id := newId, name := s, img := p.img, author := uid,
             playlist := p._id, liked := [], createdAt := now } : Track),
          ⟨db.users,
            updatePlaylistById db.playlists pid
              (fun q => { q with tracks := q.tracks ++ [newId] }),
            db.tracks ++
              [{ _id := newId, name := s, img := p.img, author := uid,
                 playlist := p._id, liked := [], createdAt := now }]⟩) := by
      simp [postTrack, hb, hp]
    refine ⟨{ _id := newId, name := s, img := p.img, author := uid,
              playlist := p._id, liked := [], createdAt := now },
      hstep, rfl, rfl, rfl, rfl, rfl, ?_⟩
    rw [hstep]
    refine ⟨{ p with tracks := p.tracks ++ [newId] }, ?_, rfl⟩
    exact findPlaylist_updatePlaylistById db.playlists pid
      (fun q => { q with tracks := q.tracks ++ [newId] }) (fun x => rfl) p hp

/-- Witness for C6 at the concrete store: adding a track named New Song
to playlist 10. -/
theorem post_track_spec_witness :
    ∃ tr : Track,
      postTrack exDB 7 10 (some ("New Song")) 500 60 =
        (Except.ok tr,
          ⟨exDB.users,
            updatePlaylistById exDB.playlists 10
              (fun q => { q with tracks := q.tracks ++ [tr._id] }),
            exDB.tracks ++ [tr]⟩) ∧
      tr.name = ("New Song") ∧ tr.img = exPl.img ∧ tr.author = 7 ∧
      tr.playlist = exPl._id ∧ tr.liked = ([] : List Nat) ∧
      (∃ p2, findPlaylist
          (postTrack exDB 7 10 (some ("New Song")) 500 60).2.playlists 10 =
            some p2 ∧ p2.tracks = exPl.tracks ++ [tr._id]) :=
  (post_track_spec exDB 7 10 500 60).2.2.2 ("New Song") exPl (by decide)
    (by decide)

theorem removeTrackById_split (ts : List Track) (tid : Nat) (t : Track)
    (h : findTrack ts tid = some t) :
    ∃ l1 l2, ts = l1 ++ t :: l2 ∧ removeTrackById ts tid = l1 ++ l2 ∧
      ∀ x ∈ l1, x._id ≠ tid := by
  induction ts with
  | nil => simp [findTrack] at h
  | cons t0 rest ih =>
      by_cases h0 : (t0._id == tid) = true
      · have h1 : findTrack (t0 :: rest) tid = some t0 := by
          simp [findTrack, List.find?_cons_of_pos, h0]
        rw [h1] at h
        injection h with h
        subst h
        refine ⟨[], rest, rfl, ?_, by simp⟩
        simp [removeTrackById, h0]
      · have h1 : findTrack (t0 :: rest) tid = findTrack rest tid := by
          simp [findTrack, List.find?_cons_of_neg, h0]
        rw [h1] at h
        obtain ⟨l1, l2, heq, hrem, hl1⟩ := ih h
        refine ⟨t0 :: l1, l2, by rw [List.cons_append, heq], ?_, ?_⟩
        · rw [List.cons_append, ← hrem]
          simp [removeTrackById, h0]
        · intro x hx
          rcases List.mem_cons.mp hx with rfl | hx
          · simpa using h0
          · exact hl1 x hx

/-- C7: deleting by a requester who is neither the author nor an ADMIN
fails with the 403 permission error and leaves the store untouched; a
missing track fails with the 404 error and leaves the store untouched;
otherwise the track is removed from the store and its prior
representation is returned. -/
theorem delete_track_spec (db : DB) (uid : Nat) (role : String) (tid : Nat) :
    (findTrack db.tracks tid = none →
      deleteTrack db uid role tid =
        (Except.error ⟨("Playlist not found"), 404⟩, db)) ∧
    (∀ t, findTrack db.tracks tid = some t → t.author ≠ uid →
      role ≠ ("ADMIN") →
      deleteTrack db uid role tid =
        (Except.error ⟨("Dont have permission"), 403⟩, db)) ∧
    (∀ t, findTrack db.tracks tid = some t →
      (t.author = uid ∨ role = ("ADMIN")) →
      (deleteTrack db uid role tid).1 = Except.ok t ∧
      ∃ l1 l2, db.tracks = l1 ++ t :: l2 ∧
        (deleteTrack db uid role tid).2.tracks = l1 ++ l2 ∧
        ∀ x ∈ l1, x._id ≠ tid) := by
  refine ⟨?_, ?_, ?_⟩
  · intro h
    simp [deleteTrack, h]
  · intro t ht ha hr
    simp only [deleteTrack, ht]
    rw [if_pos ⟨ha, hr⟩]
  · intro t ht hor
    have hcond : ¬ (t.author ≠ uid ∧ role ≠ ("ADMIN")) := by
      rcases hor with h1 | h1
      · exact fun hand => hand.1 h1
      · exact fun hand => hand.2 h1
    have hstep : deleteTrack db uid role tid =
        (Except.ok t,
          ⟨db.users, db.playlists, removeTrackById db.tracks tid⟩) := by
      simp only [deleteTrack, ht]
      rw [if_neg hcond]
    obtain ⟨l1, l2, heq, hrem, hl1⟩ := removeTrackById_split db.tracks tid t ht
    refine ⟨by rw [hstep], l1, l2, heq, ?_, hl1⟩
    rw [hstep]
    exact hrem

/-- Witness for C7 at the concrete store: the author of track 100
deletes it. -/
theorem delete_track_spec_witness :
    (deleteTrack exDB 1 ("USER") 100).1 = Except.ok exT1 :=
  ((delete_track_spec exDB 1 ("USER") 100).2.2 exT1 (by decide)
    (Or.inl (by decide))).1

/-- C10: a delete request for a track id that resolves to no stored
track raises status 404 with the message of the playlist handler it was
copied from, and the store is unchanged. -/
theorem delete_missing_track_message (db : DB) (uid : Nat) (role : String)
    (tid : Nat) (h : findTrack db.tracks tid = none) :
    deleteTrack db uid role tid =
      (Except.error ⟨("Playlist not found"), 404⟩, db) := by
  simp [deleteTrack, h]

/-- Witness for C10 at the concrete store: track id 999 is absent. -/
theorem delete_missing_track_message_witness :
    deleteTrack exDB 7 ("USER") 999 =
      (Except.error ⟨("Playlist not found"), 404⟩, exDB) :=
  delete_missing_track_message exDB 7 ("USER") 999 (by decide)

theorem mem_updateTrackById {ts : List Track} {tid : Nat} {f : Track → Track}
    {x : Track} (h : x ∈ updateTrackById ts tid f) :
    x ∈ ts ∨ ∃ t ∈ ts, x = f t := by
  induction ts with
  | nil => simp [updateTrackById] at h
  | cons t0 rest ih =>
      by_cases h0 : (t0._id == tid) = true
      · simp only [updateTrackById, h0, if_true] at h
        rcases List.mem_cons.mp h with rfl | h
        · exact Or.inr ⟨t0, List.mem_cons_self t0 rest, rfl⟩
        · exact Or.inl (List.mem_cons_of_mem t0 h)
      · simp only [updateTrackById, h0, Bool.false_eq_true, if_false] at h
        rcases List.mem_cons.mp h with rfl | h
        · exact Or.inl (List.mem_cons_self x rest)
        · rcases ih h with h | ⟨t1, ht1, rfl⟩
          · exact Or.inl (List.mem_cons_of_mem t0 h)
          · exact Or.inr ⟨t1, List.mem_cons_of_mem t0 ht1, rfl⟩

theorem mem_removeTrackById {ts : List Track} {tid : Nat} {x : Track}
    (h : x ∈ removeTrackById ts tid) : x ∈ ts := by
  induction ts with
  | nil => simp [removeTrackById] at h
  | cons t0 rest ih =>
      by_cases h0 : (t0._id == tid) = true
      · simp only [removeTrackById, h0, if_true] at h
        exact List.mem_cons_of_mem t0 h
      · simp only [removeTrackById, h0, Bool.false_eq_true, if_false] at h
        rcases List.mem_cons.mp h with rfl | h
        · exact List.mem_cons_self x rest
        · exact List.mem_cons_of_mem t0 (ih h)

theorem nodup_pullLiked {l : List Nat} (uid : Nat) (h : l.Nodup) :
    (pullLiked l uid).Nodup :=
  List.Nodup.filter _ h

theorem nodup_addToSetLiked {l : List Nat} (uid : Nat) (h : l.Nodup) :
    (addToSetLiked l uid).Nodup := by
  unfold addToSetLiked
  by_cases hx : l.contains uid = true
  · rw [if_pos hx]
    exact h
  · rw [if_neg hx]
    rw [List.nodup_append]
    refine ⟨h, by simp, ?_⟩
    intro a ha hb
    rw [List.mem_singleton] at hb
    subst hb
    exact hx (List.elem_eq_true_of_mem ha)

/-- C8: the at-most-once liker invariant is preserved by every mutation:
the like toggle's pull and add-to-set branches keep liker arrays
duplicate-free, track creation starts from an empty liker array, and
deletion only removes documents. -/
theorem liked_nodup_invariant (db : DB) (h : LikedNodup db) :
    (∀ uid tid, LikedNodup (putTrackLike db uid tid).2) ∧
    (∀ uid pid name newId now,
      LikedNodup (postTrack db uid pid name newId now).2) ∧
    (∀ uid role tid, LikedNodup (deleteTrack db uid role tid).2) := by
  refine ⟨?_, ?_, ?_⟩
  · intro uid tid
    cases hf : findTrack db.tracks tid with
    | none =>
        have hdb : (putTrackLike db uid tid).2 = db := by
          simp [putTrackLike, hf]
        rw [hdb]
        exact h
    | some t0 =>
        by_cases hc : t0.liked.contains uid = true
        · rw [putTrackLike_found_liked db uid tid t0 hf hc]
          intro x hx
          rcases mem_updateTrackById hx with hx | ⟨t1, ht1, rfl⟩
          · exact h x hx
          · exact nodup_pullLiked uid (h t1 ht1)
        · rw [putTrackLike_found_unliked db uid tid t0 hf
            (Bool.eq_false_iff.mpr hc)]
          intro x hx
          rcases mem_updateTrackById hx with hx | ⟨t1, ht1, rfl⟩
          · exact h x hx
          · exact nodup_addToSetLiked uid (h t1 ht1)
  · intro uid pid name newId now
    cases name with
    | none => exact h
    | some s =>
        by_cases hb : (s.length == 0) = true
        · have hdb : (postTrack db uid pid (some s) newId now).2 = db := by
            simp [postTrack, hb]
          rw [hdb]
          exact h
        · cases hp : findPlaylist db.playlists pid with
          | none =>
              have hdb : (postTrack db uid pid (some s) newId now).2 = db := by
                simp [postTrack, hb, hp]
              rw [hdb]
              exact h
          | some p =>
              have hdb : (postTrack db uid pid (some s) newId now).2.tracks =
                  db.tracks ++
                    [{ _id := newId, name := s, img := p.img, author := uid,
                       playlist := p._id, liked := [], createdAt := now }] := by
                simp [postTrack, hb, hp]
              intro x hx
              rw [hdb] at hx
              rcases List.mem_append.mp hx with hx | hx
              · exact h x hx
              · rw [List.mem_singleton] at hx
                subst hx
                simp
  · intro uid role tid
    cases hf : findTrack db.tracks tid with
    | none =>
        have hdb : (deleteTrack db uid role tid).2 = db := by
          simp [deleteTrack, hf]
        rw [hdb]
        exact h
    | some t0 =>
        by_cases hcond : t0.author ≠ uid ∧ role ≠ ("ADMIN")
        · have hdb : (deleteTrack db uid role tid).2 = db := by
            simp only [deleteTrack, hf]
            rw [if_pos hcond]
          rw [hdb]
          exact h
        · have hdb : (deleteTrack db uid role tid).2.tracks =
              removeTrackById db.tracks tid := by
            simp only [deleteTrack, hf]
            rw [if_neg hcond]
          intro x hx
          rw [hdb] at hx
          exact h x (mem_removeTrackById hx)

/-- Witness for C8 at the concrete store. -/
theorem liked_nodup_invariant_witness :
    LikedNodup (putTrackLike exDB 7 100).2 :=
  (liked_nodup_invariant exDB (by unfold LikedNodup; decide)).1 7 100

set_option maxRecDepth 100000 in
/-- C9: the avatar URL is a deterministic function of the email and
size: with an email set it is the fixed gravatar pattern embedding the
MD5 hex digest of the email (case-sensitively, as the digests of two
emails differing only in case differ) and the size, defaulting to 200;
with no email set it is the hashless fallback URL. -/
theorem gravatar_spec :
    (∀ (e : String) (size : Option Nat), e ≠ ("") →
      gravatar (some e) size =
        ("https://gravatar.com/avatar/") ++ md5Hex e ++ ("?s=") ++
          toString (size.getD 200) ++ ("&d=retro")) ∧
    (∀ size : Option Nat,
      gravatar none size =
        ("https://gravatar.com/avatar/?s=") ++ toString (size.getD 200) ++
          ("&d=retro") ∧
      gravatar (some ("")) size =
        ("https://gravatar.com/avatar/?s=") ++ toString (size.getD 200) ++
          ("&d=retro")) ∧
    (∀ e : Option String, gravatar e none = gravatar e (some 200)) ∧
    (gravatar (some ("Test@example.com")) none ≠
      gravatar (some ("test@example.com")) none) ∧
    (gravatar (some ("test@example.com")) none =
      ("https://gravatar.com/avatar/55502f40dc8b7c769880b10874abc9d0?s=200&d=retro")) := by
  refine ⟨?_, ?_, ?_, ?_, ?_⟩
  · intro e size he
    have hb : (e.length == 0) = false := by
      simp only [beq_eq_false_iff_ne, ne_eq]
      exact fun hh => he (stringLengthZero.mp hh)
    simp [gravatar, hb]
  · intro size
    exact ⟨rfl, rfl⟩
  · intro e
    cases e with
    | none => rfl
    | some s => rfl
  · decide
  · decide

/-- Witness for C9: a concrete email and explicit size 80. -/
theorem gravatar_spec_witness :
    gravatar (some ("a@b.c")) (some 80) =
      ("https://gravatar.com/avatar/") ++ md5Hex ("a@b.c") ++ ("?s=") ++
        toString ((some 80).getD 200) ++ ("&d=retro") :=
  gravatar_spec.1 ("a@b.c") (some 80) (by decide)
